import Mathlib

/-!
Verification development for the eclean-kernel core: a shallow embedding of
`ecleankernel/file.py` (the kernel-image version parser) and
`ecleankernel/layout/std.py` (the standard-layout scanner), with theorems
settling the specification claims about them.

Byte streams are modelled as `List Nat` (one `Nat` per byte) together with
explicit positions; decompression codecs and the filesystem are abstracted as
function parameters, since the Python code only observes them through
`decompress`, `glob`, `os.path.isdir`, `os.path.samefile` and the recursive
image parse.
-/

namespace ECleanKernel

/-- A byte string, one `Nat` per byte. -/
abbrev Bytes := List Nat

deriving instance DecidableEq for Except

/-- ASCII bytes of a string (all strings involved are ASCII). -/
def strBytes (s : String) : Bytes := s.toList.map Char.toNat

/-- `b'HdrS'`. -/
def hdrSB : Bytes := strBytes "HdrS"

/-- `b'MZ'`. -/
def mzB : Bytes := strBytes "MZ"

/-- `b'Linux version '`, the boot banner marker searched by `ver_from_raw`. -/
def linuxVersionB : Bytes := strBytes "Linux version "

/-- `b'.linux'`, the section-name fragment searched by `read_internal_version`. -/
def dotLinuxB : Bytes := strBytes ".linux"

/-- `l.startswith(pre)` on byte strings (Python `bytes.startswith`). -/
def startsWithB (l pre : Bytes) : Bool := l.take pre.length == pre

/-- `hay.find(pat)` on byte strings: index of the first occurrence of `pat` as a
contiguous substring of `hay`, `none` when absent (Python returns `-1`). -/
def findSub (pat : Bytes) : Bytes → Option Nat
  | [] => if startsWithB [] pat then some 0 else none
  | a :: t =>
    if startsWithB (a :: t) pat then some 0
    else (findSub pat t).map (fun i => i + 1)

/-- Errors surfaced by the image parser.  `unrecognized` is
`UnrecognizedKernelError`, `missingDecompressor` is `MissingDecompressorError`,
and `structShort` models the `struct.error` raised by `struct.unpack` when the
preceding `read` returned fewer bytes than the format requires. -/
inductive ImgError
  | unrecognized
  | missingDecompressor (codec : String)
  | structShort
deriving DecidableEq

/-- The ordered `magic_dict` of `KernelImage.ver_from_raw` (Python dicts keep
insertion order): magic prefix to codec module name. -/
def magicList : List (Bytes × String) :=
  [([0x1f, 0x8b, 0x08], "gzip"),
   ([0x42, 0x5a, 0x68], "bz2"),
   ([0xfd, 0x37, 0x7a, 0x58, 0x5a, 0x00], "lzma"),
   ([0x5d, 0x00, 0x00], "lzma"),
   ([0x04, 0x22, 0x4d, 0x18], "lz4.frame"),
   ([0x28, 0xb5, 0x2f, 0xfd], "zstandard"),
   ([0x89, 0x4c, 0x5a, 0x4f, 0x00, 0x0d, 0x0a, 0x1a, 0x0a], "lzo")]

/-- The `for magic, comp in magic_dict.items():` loop of `ver_from_raw`,
embedded exactly as written: the loop has no `break`, and the `else` branch is
attached to the `if` inside the loop, so every iteration reassigns `b`.  The
state is `(remaining, b)` where `remaining` is what is left of the stream
(`f.read()` with no argument consumes it all) and `b` is the buffer variable.
`avail comp` models whether `importlib.import_module(comp)` succeeds and
`decomp comp` the codec's `decompress`. -/
def rawLoop (avail : String → Bool) (decomp : String → Bytes → Bytes)
    (header : Bytes) :
    List (Bytes × String) → Bytes × Bytes → Except ImgError (Bytes × Bytes)
  | [], st => .ok st
  | (magic, comp) :: rest, (remaining, _b) =>
    if startsWithB header magic then
      if avail comp then
        rawLoop avail decomp header rest ([], decomp comp remaining)
      else .error (.missingDecompressor comp)
    else rawLoop avail decomp header rest ([], remaining)

/-- `KernelImage.ver_from_raw`, as a function of the bytes of the stream from
its current position to EOF (`file.py` lines 99-148).  `header` is the peeked
`maxlen`-byte prefix (`maxlen = 9`, the longest magic); after the magic loop
the banner `Linux version ` is searched in `b`, up to `0x100` bytes after it
are split at the first space, and the text before the space is returned
(as bytes; the final `.decode()` is left implicit). -/
def verFromRaw (avail : String → Bool) (decomp : String → Bytes → Bytes)
    (input : Bytes) : Except ImgError Bytes :=
  let maxlen := (magicList.map (fun x => x.1.length)).foldl Nat.max 0
  let header := input.take maxlen
  match rawLoop avail decomp header magicList (input, []) with
  | .error e => .error e
  | .ok (_, b) =>
    match findSub linuxVersionB b with
    | none => .error .unrecognized
    | some p =>
      let sbuf := (b.drop (p + linuxVersionB.length)).take 0x100
      if sbuf.contains 32 then .ok (sbuf.takeWhile (fun c => c != 32))
      else .error .unrecognized

/-- `struct.unpack('B', f.read(1))[0]` at an absolute position. -/
def u8 (data : Bytes) (pos : Nat) : Except ImgError Nat :=
  match (data.drop pos).take 1 with
  | [a] => .ok a
  | _ => .error .structShort

/-- `struct.unpack('H', f.read(2))[0]` (little-endian) at an absolute position. -/
def u16 (data : Bytes) (pos : Nat) : Except ImgError Nat :=
  match (data.drop pos).take 2 with
  | [a, b] => .ok (a + 256 * b)
  | _ => .error .structShort

/-- `struct.unpack('I', f.read(4))[0]` (little-endian) at an absolute position. -/
def u32 (data : Bytes) (pos : Nat) : Except ImgError Nat :=
  match (data.drop pos).take 4 with
  | [a, b, c, d] => .ok (a + 256 * b + 65536 * c + 16777216 * d)
  | _ => .error .structShort

/-- Does the 8-byte section name read at `pos` contain `.linux`?
(`'.linux' in Name`; the name is ASCII so the check on the decoded string is
the check on the bytes.) -/
def sectionMatch (data : Bytes) (pos : Nat) : Bool :=
  (findSub dotLinuxB ((data.drop pos).take 8)).isSome

/-- The section-table loop of `read_internal_version`
(`for i in range(1, NumberOfSections)`), embedded with the iteration count as
the `Nat` argument: each iteration examines the 40-byte entry at `pos`, stops
at the first whose name field contains `.linux` and returns its 4-byte
pointer-to-raw-data read 20 bytes into the entry; `PointerToRawData`
defaults to 0 when the iterations are exhausted. -/
def scanSections (data : Bytes) : Nat → Nat → Except ImgError Nat
  | _pos, 0 => .ok 0
  | pos, n + 1 =>
    if sectionMatch data pos then u32 data (pos + 20)
    else scanSections data (pos + 40) n

/-- The `MZ` branch of `read_internal_version` up to `f.seek(PointerToRawData)`
(`file.py` lines 172-201): read the 1-byte header offset at `0x3c`, the 2-byte
section count at COFF+2 and the 2-byte optional-header size at COFF+16, move
past the 20-byte COFF header and the optional header, then run the
section-table loop — which iterates `NumberOfSections - 1` times. -/
def computePTR (data : Bytes) : Except ImgError Nat :=
  match u8 data 0x3c with
  | .error e => .error e
  | .ok headerPos =>
    match u16 data (headerPos + 4 + 2) with
    | .error e => .error e
    | .ok numberOfSections =>
      match u16 data (headerPos + 4 + 16) with
      | .error e => .error e
      | .ok sizeOfOptionalHeader =>
        scanSections data (headerPos + 4 + 20 + sizeOfOptionalHeader)
          (numberOfSections - 1)

/-- The 2-byte little-endian jump offset read at byte 14 of the 16-byte block
at `start + 0x200` (`struct.unpack_from('H', buf, 0x0e)`). -/
def bzOffset (data : Bytes) (start : Nat) : Nat :=
  let buf := (data.drop (start + 0x200)).take 0x10
  buf.getD 14 0 + 256 * buf.getD 15 0

/-- `KernelImage.ver_from_BzImage` (`file.py` lines 150-167), with the stream
positioned at `start`: seek forward `0x200`, read 16 bytes (short read raises
`UnrecognizedKernelError`); if bytes 2..6 are `HdrS`, seek to
`start + 0x200 + offset` and read up to `0x100` bytes (an empty read raises
`UnrecognizedKernelError`), returning the text before the first space
(`split(b' ', 1)[0]` is the whole buffer when no space occurs).  When the
`HdrS` check fails the Python function falls through and returns `None`,
modelled as `.ok none`. -/
def verFromBzImage (data : Bytes) (start : Nat) : Except ImgError (Option Bytes) :=
  let buf := (data.drop (start + 0x200)).take 0x10
  if buf.length = 0x10 then
    if (buf.drop 2).take 4 = hdrSB then
      let buf2 := (data.drop (start + 0x200 + bzOffset data start)).take 0x100
      if buf2.isEmpty then .error .unrecognized
      else .ok (some (buf2.takeWhile (fun c => c != 32)))
    else .ok none
  else .error .unrecognized

/-- `KernelImage.read_internal_version` (`file.py` lines 169-211): on an `MZ`
file compute `PointerToRawData`, read 4 bytes at `PointerToRawData + 0x202`,
and dispatch to `ver_from_BzImage` when they are `HdrS`, otherwise to
`ver_from_raw` on the stream repositioned at `PointerToRawData`; a non-`MZ`
file goes to `ver_from_raw` with the stream left after the 2-byte magic read.
The result is `Option Bytes` because `ver_from_BzImage` can return `None`. -/
def readInternalVersion (avail : String → Bool) (decomp : String → Bytes → Bytes)
    (data : Bytes) : Except ImgError (Option Bytes) :=
  if data.take 2 = mzB then
    match computePTR data with
    | .error e => .error e
    | .ok ptr =>
      if (data.drop (ptr + 0x202)).take 4 = hdrSB then
        verFromBzImage data ptr
      else (verFromRaw avail decomp (data.drop ptr)).map some
  else (verFromRaw avail decomp (data.drop 2)).map some

/-- Follows the spec's words, for comparison with `scanSections`: "linearly
scan up to `count` 40-byte section-table entries; each entry begins with an
8-byte name field.  Stop at the first entry whose name contains the substring
`.linux`; read its 4-byte little-endian pointer-to-raw-data field (located 20
bytes into the entry) ...  If no matching section is found, the raw-data
pointer defaults to 0."  Entry `i` of the table starting at `table` sits at
`table + 40 * i`. -/
def scanSectionsSpec (data : Bytes) (table count : Nat) : Except ImgError Nat :=
  match (List.range count).find? (fun i => sectionMatch data (table + 40 * i)) with
  | some i => u32 data (table + 40 * i + 20)
  | none => .ok 0

/-- The header walk of `computePTR` followed by the spec's scan over the full
`count` entries — the claim's reading of the parser. -/
def computePTRclaim (data : Bytes) : Except ImgError Nat :=
  match u8 data 0x3c with
  | .error e => .error e
  | .ok headerPos =>
    match u16 data (headerPos + 4 + 2) with
    | .error e => .error e
    | .ok numberOfSections =>
      match u16 data (headerPos + 4 + 16) with
      | .error e => .error e
      | .ok sizeOfOptionalHeader =>
        scanSectionsSpec data (headerPos + 4 + 20 + sizeOfOptionalHeader)
          numberOfSections

/-- The header walk of `computePTR` followed by the spec's scan over
`count - 1` entries — the amended reading. -/
def computePTRamended (data : Bytes) : Except ImgError Nat :=
  match u8 data 0x3c with
  | .error e => .error e
  | .ok headerPos =>
    match u16 data (headerPos + 4 + 2) with
    | .error e => .error e
    | .ok numberOfSections =>
      match u16 data (headerPos + 4 + 16) with
      | .error e => .error e
      | .ok sizeOfOptionalHeader =>
        scanSectionsSpec data (headerPos + 4 + 20 + sizeOfOptionalHeader)
          (numberOfSections - 1)

/-! ### The standard-layout scanner (`ecleankernel/layout/std.py`) -/

/-- `KernelFileType` (`file.py` lines 15-24); `value` below gives each
member's string value. -/
inductive KernelFileType
  | kernel
  | systemMap
  | config
  | initramfs
  | modules
  | build
  | misc
  | emptydir
deriving DecidableEq

/-- The `.value` string of each `KernelFileType` member. -/
def KernelFileType.value : KernelFileType → String
  | .kernel => "vmlinuz"
  | .systemMap => "systemmap"
  | .config => "config"
  | .initramfs => "initramfs"
  | .modules => "modules"
  | .build => "build"
  | .misc => "misc"
  | .emptydir => "emptydir"

/-- Which removal routine a file object carries, determined by its Python
class: `GenericFile.remove` calls `os.unlink`, `GenericDirectory.remove`
(inherited by `ModuleDirectory`) calls `shutil.rmtree`, and
`EmptyDirectory.remove` wraps `os.rmdir` tolerating non-emptiness. -/
inductive RemovalKind
  | unlink
  | rmtree
  | rmdirIfEmpty
deriving DecidableEq

/-- A file object produced by the scanner: `path` and `ftype` as in
`GenericFile`, `rkind` recording which class's `remove` it carries, and
`internalVersion` set only for `KernelImage`. -/
structure GenericFile where
  path : String
  ftype : KernelFileType
  rkind : RemovalKind
  internalVersion : Option String := none
deriving DecidableEq

/-- `GenericFile(path, ftype)`: a plain file, removed with `os.unlink`. -/
def mkGenericFile (p : String) (t : KernelFileType) : GenericFile :=
  { path := p, ftype := t, rkind := .unlink }

/-- `GenericDirectory(path, ftype)`: removed recursively with
`shutil.rmtree`.  (Defined in `file.py`; `StdLayout.find_kernels` never
constructs one.) -/
def mkGenericDirectory (p : String) (t : KernelFileType) : GenericFile :=
  { path := p, ftype := t, rkind := .rmtree }

/-- `KernelImage(path)` whose `read_internal_version` returned `ver`: role
`KERNEL`, removal inherited from `GenericFile` (`os.unlink`). -/
def mkKernelImage (p : String) (ver : String) : GenericFile :=
  { path := p, ftype := .kernel, rkind := .unlink, internalVersion := some ver }

/-- Outcome of invoking a file object's `remove()` against a path that
`present`ly exists or not, is a directory or not, and (for the `rmdir` case)
is non-empty or not.  `os.unlink` on an existing directory raises
`IsADirectoryError`; `shutil.rmtree` removes the tree; both raise
`FileNotFoundError` on an absent path; `EmptyDirectory.remove` returns `False`
("kept") on a non-empty directory. -/
inductive RemoveOutcome
  | removed
  | kept
  | errNotFound
  | errIsADirectory
deriving DecidableEq

/-- Removal semantics per removal kind (see `RemoveOutcome`). -/
def removeAct (k : RemovalKind) (present isDirectory nonEmpty : Bool) : RemoveOutcome :=
  match k with
  | .unlink =>
    if !present then .errNotFound
    else if isDirectory then .errIsADirectory
    else .removed
  | .rmtree => if !present then .errNotFound else .removed
  | .rmdirIfEmpty =>
    if !present then .errNotFound
    else if nonEmpty then .kept
    else .removed

/-- The `Kernel` aggregate: a version key and one optional slot per role
(`vmlinuz`, `systemmap`, `config`, `initramfs`, `modules`, `build`). -/
structure Kernel where
  version : String
  vmlinuz : Option GenericFile := none
  systemmap : Option GenericFile := none
  config : Option GenericFile := none
  initramfs : Option GenericFile := none
  modules : Option GenericFile := none
  build : Option GenericFile := none
deriving DecidableEq

/-- The slot of a `Kernel` aggregate addressed by a role's `value` name, as
`setattr(newk, cat.value, ...)` does; `misc` and `emptydir` have no slot. -/
def Kernel.slot (k : Kernel) : KernelFileType → Option GenericFile
  | .kernel => k.vmlinuz
  | .systemMap => k.systemmap
  | .config => k.config
  | .initramfs => k.initramfs
  | .modules => k.modules
  | .build => k.build
  | .misc => none
  | .emptydir => none

/-- Modelled from the spec: the slot-assignment discipline of the `Kernel`
aggregate class (file `ecleankernel/kernel.py`, which is not among the
sources; only its caller `StdLayout.find_kernels` is).  Spec section 3 states
the invariant "at most one file occupies each slot; attempting to assign a
second file to an already-occupied slot is a fatal collision error (the two
conflicting paths must be named in the error)", and section 9 prescribes "an
explicit set-if-empty-else-fail accessor per field"; the `try/except KeyError`
around `setattr` in `std.py` confirms that assignment raises on a collision.
Accordingly assignment succeeds on an empty slot and fails, returning the
occupying file, on an occupied one.  The `misc`/`emptydir` roles have no slot
in the aggregate and are never assigned by the scanner; they are modelled as a
successful no-op. -/
def Kernel.setSlot (k : Kernel) (t : KernelFileType) (f : GenericFile) :
    Except GenericFile Kernel :=
  match k.slot t with
  | some old => .error old
  | none =>
    match t with
    | .kernel => .ok { k with vmlinuz := some f }
    | .systemMap => .ok { k with systemmap := some f }
    | .config => .ok { k with config := some f }
    | .initramfs => .ok { k with initramfs := some f }
    | .modules => .ok { k with modules := some f }
    | .build => .ok { k with build := some f }
    | .misc => .ok k
    | .emptydir => .ok k

/-- A fatal error aborting `find_kernels`: `collision` is the `SystemError`
raised from the `try/except KeyError` around the main `setattr` ("Colliding
<cat> files: <new> and <old>", naming both paths); `slotOccupied` is the
uncaught slot-assignment failure from the plain assignments outside that
`try/except`; `parseError` is an `UnrecognizedKernelError` /
`MissingDecompressorError` propagating out of the `KernelImage` constructor. -/
inductive ScanError
  | collision (cat newPath oldPath : String)
  | slotOccupied (cat newPath oldPath : String)
  | parseError (e : ImgError)
deriving DecidableEq

/-- The filesystem as `find_kernels` observes it: `globResults g` is
`glob('%s*' % g)`, `isdir` is `os.path.isdir`, `inode` gives the stat identity
used by `os.path.samefile` (two paths are the same file iff their inodes are
equal), and `readVer p` is the internal version computed by
`KernelImage(Path(p))`, or the parse error it raises. -/
structure Fs where
  globResults : String → List String
  isdir : String → Bool
  inode : String → Nat
  readVer : String → Except ImgError String

/-- `s.startswith(t)` on strings, via the character lists (kernel-reducible,
unlike `String.startsWith`). -/
def strStartsWith (s t : String) : Bool := s.toList.take t.length == t.toList

/-- `s.endswith(t)` on strings, via the character lists (kernel-reducible,
unlike `String.endsWith`). -/
def strEndsWith (s t : String) : Bool :=
  s.toList.reverse.take t.length == t.toList.reverse

/-- `any(os.path.samefile(x, m) for x in prev_paths)`. -/
def sameFileAny (fs : Fs) (prev : List String) (m : String) : Bool :=
  prev.any (fun x => fs.inode x == fs.inode m)

/-- `os.path.join` for the paths the scanner builds (second component
absolute wins; otherwise join with a single slash). -/
def pathJoin (a b : String) : String :=
  if strStartsWith b "/" then b
  else if strEndsWith a "/" || a == "" then a ++ b
  else a ++ "/" ++ b

/-- Scanner state: the `prev_paths` set (as a list; only `samefile`-membership
is ever asked of it) and the insertion-ordered `kernels` dict. -/
structure ScanState where
  prevPaths : List String
  kernels : List (String × Kernel)
deriving DecidableEq

/-- Lookup in the insertion-ordered `kernels` dict. -/
def lookupK : List (String × Kernel) → String → Option Kernel
  | [], _ => none
  | (k0, v0) :: rest, key => if k0 = key then some v0 else lookupK rest key

/-- Replace the value at an existing key, keeping insertion order. -/
def updateK : List (String × Kernel) → String → Kernel → List (String × Kernel)
  | [], _, _ => []
  | (k0, v0) :: rest, key, v =>
    if k0 = key then (k0, v) :: rest else (k0, v0) :: updateK rest key v

/-- `kernels.setdefault(kv, Kernel(kv))`, dict part: insert a fresh aggregate
at the end when the key is absent. -/
def setdefaultK (ks : List (String × Kernel)) (kv : String) : List (String × Kernel) :=
  if (lookupK ks kv).isSome then ks else ks ++ [(kv, { version := kv })]

/-- `kernels.setdefault(kv, Kernel(kv))`, value part: the aggregate the
subsequent statements operate on. -/
def getOrInit (ks : List (String × Kernel)) (kv : String) : Kernel :=
  (lookupK ks kv).getD { version := kv }

/-- The version key of a match: the filename suffix after the glob prefix,
with the initramfs `.img` / `.img.old` rewriting (`std.py` lines 56-61). -/
def computeKv (cat : KernelFileType) (g m : String) : String :=
  let kv := m.drop g.length
  if cat = KernelFileType.initramfs then
    if strEndsWith kv ".img" then kv.dropRight 4
    else if strEndsWith kv ".img.old" then kv.dropRight 8 ++ ".old"
    else kv
  else kv

/-- The `.old` propagation for a module-tree match (`std.py` lines 88-91):
when an aggregate keyed `kv + '.old'` exists, assign `newk.modules` into its
`modules` slot and, if `newk.build` is set, `newk.build` into its `build`
slot.  The assignments are the plain `setattr`s of the source (not wrapped in
`try/except`), so a failing slot assignment propagates as `slotOccupied`.
`newk.modules` is always set when this runs (the match was just assigned);
the `none` case is modelled as a no-op. -/
def propagateToOld (ks : List (String × Kernel)) (kv : String) (newk : Kernel) :
    Except ScanError (List (String × Kernel)) :=
  match lookupK ks (kv ++ ".old") with
  | none => .ok ks
  | some kold =>
    match ((match newk.modules with
            | none => Except.ok kold
            | some fo =>
              match kold.setSlot .modules fo with
              | .error old => .error (.slotOccupied "modules" fo.path old.path)
              | .ok k1 => .ok k1) : Except ScanError Kernel) with
    | .error e => .error e
    | .ok k1 =>
      match newk.build with
      | none => .ok (updateK ks (kv ++ ".old") k1)
      | some bf =>
        match k1.setSlot .build bf with
        | .error old => .error (.slotOccupied "build" bf.path old.path)
        | .ok k2 => .ok (updateK ks (kv ++ ".old") k2)

/-- Processing of one glob match `m` for rule `(cat, g)` (`std.py` lines
55-106): compute the version key; for a module match skip it when it is the
same file as any previously matched path; build the file object (`KernelImage`
for kernel matches, parsing the image, else a plain `GenericFile`); record the
path and `setattr` the object into the aggregate's slot (a `KeyError` becomes
the fatal `Colliding ... files` `SystemError`); then the role-specific extras:
for a module match, a `build` subdirectory check plus the `.old` propagation;
for a kernel match, the module/build directories derived from the image's
internal version under the hardcoded `/lib/modules`. -/
def processGlobFile (fs : Fs) (excl : List String) (st : ScanState)
    (cat : KernelFileType) (g m : String) : Except ScanError ScanState :=
  let kv := computeKv cat g m
  if cat == KernelFileType.modules && sameFileAny fs st.prevPaths m then .ok st
  else
    match (if cat == KernelFileType.kernel
           then (fs.readVer m).map (mkKernelImage m)
           else Except.ok (mkGenericFile m cat)) with
    | .error e => .error (.parseError e)
    | .ok fileObj =>
      let prev1 := st.prevPaths ++ [m]
      let ks1 := setdefaultK st.kernels kv
      let newk := getOrInit st.kernels kv
      match newk.setSlot cat fileObj with
      | .error old => .error (.collision cat.value m old.path)
      | .ok newk1 =>
        let ks2 := updateK ks1 kv newk1
        if cat == KernelFileType.modules then
          let builddir := pathJoin m "build"
          match (if fs.isdir builddir then
                   match newk1.setSlot .build (mkGenericFile builddir .build) with
                   | .error old => Except.error
                       (ScanError.slotOccupied "build" builddir old.path)
                   | .ok k2 => .ok k2
                 else .ok newk1) with
          | .error e => .error e
          | .ok newk2 =>
            let ks3 := updateK ks2 kv newk2
            match propagateToOld ks3 kv newk2 with
            | .error e => .error e
            | .ok ks4 => .ok { prevPaths := prev1, kernels := ks4 }
        else if cat == KernelFileType.kernel then
          let realkv := fileObj.internalVersion.getD ""
          let moduledir := pathJoin "/lib/modules" realkv
          let builddir := pathJoin moduledir "build"
          match (if !excl.contains "modules" && fs.isdir moduledir then
                   match newk1.setSlot .modules (mkGenericFile moduledir .modules) with
                   | .error old => Except.error
                       (ScanError.slotOccupied "modules" moduledir old.path)
                   | .ok k2 => .ok (k2, prev1 ++ [moduledir])
                 else .ok (newk1, prev1)) with
          | .error e => .error e
          | .ok (newk2, prev2) =>
            match (if !excl.contains "build" && fs.isdir builddir then
                     match newk2.setSlot .build (mkGenericFile builddir .build) with
                     | .error old => Except.error
                         (ScanError.slotOccupied "build" builddir old.path)
                     | .ok k3 => .ok (k3, prev2 ++ [builddir])
                   else .ok (newk2, prev2)) with
            | .error e => .error e
            | .ok (newk3, prev3) =>
              .ok { prevPaths := prev3, kernels := updateK ks2 kv newk3 }
        else .ok { prevPaths := prev1, kernels := ks2 }

/-- One rule of the glob table: skip it when its role name is excluded, else
fold `processGlobFile` over its matches. -/
def processGlob (fs : Fs) (excl : List String) (st : ScanState)
    (cat : KernelFileType) (g : String) : Except ScanError ScanState :=
  if excl.contains cat.value then .ok st
  else (fs.globResults g).foldlM (fun s m => processGlobFile fs excl s cat g m) st

/-- The ordered glob table of `StdLayout.find_kernels` (`std.py` lines
37-47). -/
def stdGlobs (bootDir modDir : String) : List (KernelFileType × String) :=
  [(KernelFileType.kernel, bootDir ++ "/vmlinuz-"),
   (KernelFileType.kernel, bootDir ++ "/vmlinux-"),
   (KernelFileType.kernel, bootDir ++ "/kernel-"),
   (KernelFileType.kernel, bootDir ++ "/bzImage-"),
   (KernelFileType.systemMap, bootDir ++ "/System.map-"),
   (KernelFileType.config, bootDir ++ "/config-"),
   (KernelFileType.initramfs, bootDir ++ "/initramfs-"),
   (KernelFileType.initramfs, bootDir ++ "/initrd-"),
   (KernelFileType.modules, modDir ++ "/")]

/-- The first eight rules of the glob table (all under `boot_directory`):
`stdGlobs b m` is this list followed by the single module rule. -/
def stdGlobsBoot (bootDir : String) : List (KernelFileType × String) :=
  [(KernelFileType.kernel, bootDir ++ "/vmlinuz-"),
   (KernelFileType.kernel, bootDir ++ "/vmlinux-"),
   (KernelFileType.kernel, bootDir ++ "/kernel-"),
   (KernelFileType.kernel, bootDir ++ "/bzImage-"),
   (KernelFileType.systemMap, bootDir ++ "/System.map-"),
   (KernelFileType.config, bootDir ++ "/config-"),
   (KernelFileType.initramfs, bootDir ++ "/initramfs-"),
   (KernelFileType.initramfs, bootDir ++ "/initrd-")]

/-- The final "fill `.old` files" pass (`std.py` lines 108-116): for each
aggregate, in insertion order, copy its `systemmap` / `config` reference into
the `.old`-keyed aggregate when the latter lacks one. -/
def fillOldPass (ks : List (String × Kernel)) : List (String × Kernel) :=
  (ks.map Prod.fst).foldl
    (fun acc key =>
      match lookupK acc key, lookupK acc (key ++ ".old") with
      | some k, some kold =>
        let k1 := if kold.systemmap = none ∧ k.systemmap ≠ none then
            { kold with systemmap := k.systemmap } else kold
        let k2 := if k1.config = none ∧ k.config ≠ none then
            { k1 with config := k.config } else k1
        updateK acc (key ++ ".old") k2
      | _, _ => acc)
    ks

/-- `StdLayout.find_kernels(exclusions, boot_directory, module_directory)`:
fold the glob table from the empty state, run the `.old` fill pass, and return
`list(kernels.values())`. -/
def findKernels (fs : Fs) (excl : List String) (bootDir modDir : String) :
    Except ScanError (List Kernel) :=
  ((stdGlobs bootDir modDir).foldlM
      (fun st cg => processGlob fs excl st cg.1 cg.2)
      { prevPaths := [], kernels := [] }).map
    (fun st => (fillOldPass st.kernels).map Prod.snd)

/-! ### Concrete fixtures used by the theorems -/

/-- Overwrite the bytes of `l` from index `i` on with `v`. -/
def patch (l : List Nat) (i : Nat) (v : List Nat) : List Nat :=
  l.take i ++ v ++ l.drop (i + v.length)

/-- An availability oracle with every codec importable. -/
def availAll : String → Bool := fun _ => true

/-- A decompression oracle under which the gzip payload of `gzInput` is a
well-formed banner: `decompress` of the gzip member yields
`Linux version 5.10.0 x`, anything else yields nothing. -/
def decompOracle : String → Bytes → Bytes := fun c _ =>
  if c = "gzip" then strBytes "Linux version 5.10.0 x" else []

/-- An uncompressed stream that is exactly the boot banner: it matches no
magic prefix and contains `Linux version ` followed by a space-terminated
version. -/
def rawBannerInput : Bytes := strBytes "Linux version 5.10.0 x"

/-- A gzip-compressed stream: the gzip magic followed by (abstracted)
compressed payload, whose decompression under `decompOracle` is the banner. -/
def gzInput : Bytes := [0x1f, 0x8b, 0x08] ++ strBytes "payload"

/-- Another uncompressed stream carrying the banner after a short prelude. -/
def rawBannerInput2 : Bytes := strBytes "abc Linux version 4.9.1 tail"

/-- A container header whose single section-table entry (count = 1) is named
`.linux` with pointer-to-raw-data `0x1234`: header offset byte at `0x3c` is 0,
so the COFF header sits at 4, the section count (1) at 6, the optional-header
size (0) at 20, and the table at 24. -/
def c2data : Bytes :=
  patch (patch (patch (List.replicate 61 0)
    6 [1, 0])
    24 (strBytes ".linux" ++ [0, 0]))
    44 [0x34, 0x12, 0, 0]

/-- A complete 528-byte `MZ` container file whose `.linux` section points at
offset 0 and whose bootloader header at `0x200` passes the `HdrS` check but
carries a corrupted jump offset of 0, so the version read lands back on the
header block itself: bytes `0x200`..`0x210` are `AB HdrS` followed by
non-space filler and the zero offset field. -/
def c7file : Bytes :=
  patch (patch (patch (patch (patch (patch (patch (List.replicate 528 1)
    0 [77, 90])
    60 [64])
    70 [2, 0])
    84 [0, 0])
    88 (strBytes ".linux" ++ [0, 0]))
    108 [0, 0, 0, 0])
    512 ([65, 66] ++ strBytes "HdrS" ++ [1, 1, 1, 1, 1, 1, 1, 1] ++ [0, 0])

/-- The garbage "version" `ver_from_BzImage` reads from `c7file`: the 16
bytes of the header block itself. -/
def c7garbage : Bytes :=
  [65, 66] ++ strBytes "HdrS" ++ [1, 1, 1, 1, 1, 1, 1, 1] ++ [0, 0]

/-- `c7file` with the jump offset replaced by 64, pointing past the end of
the 528-byte file. -/
def c7bfile : Bytes := patch c7file 526 [64, 0]

/-- Filesystem for the module-directory claims: one kernel image
`/boot/vmlinuz-1` with internal version `V`, the module tree and build dir for
`V` on disk, and one globbed module directory `/lib/modules/2` with a build
dir; all inodes distinct. -/
def fs5 : Fs :=
  { globResults := fun g =>
      if g == "/boot/vmlinuz-" then ["/boot/vmlinuz-1"]
      else if g == "/lib/modules/" then ["/lib/modules/2"]
      else [],
    isdir := fun p =>
      p == "/lib/modules/V" || p == "/lib/modules/V/build" ||
        p == "/lib/modules/2/build",
    inode := fun p =>
      if p == "/boot/vmlinuz-1" then 10
      else if p == "/lib/modules/V" then 11
      else if p == "/lib/modules/V/build" then 12
      else if p == "/lib/modules/2" then 13
      else 99,
    readVer := fun p =>
      if p == "/boot/vmlinuz-1" then .ok "V" else .error .unrecognized }

/-- Filesystem for the hardcoded-module-directory claim: one kernel image with
internal version `V`; both `/lib/modules/V` and `/custom/V` exist on disk; no
glob results under either module directory. -/
def fs3 : Fs :=
  { globResults := fun g =>
      if g == "/boot/vmlinuz-" then ["/boot/vmlinuz-1"] else [],
    isdir := fun p => p == "/lib/modules/V" || p == "/custom/V",
    inode := fun p => if p == "/boot/vmlinuz-1" then 1 else 2,
    readVer := fun p =>
      if p == "/boot/vmlinuz-1" then .ok "V" else .error .unrecognized }

/-- Filesystem for the collision claim: `/boot/vmlinuz-1` and
`/boot/vmlinux-1` both parse and both map to version key `1`. -/
def fs8 : Fs :=
  { globResults := fun g =>
      if g == "/boot/vmlinuz-" then ["/boot/vmlinuz-1"]
      else if g == "/boot/vmlinux-" then ["/boot/vmlinux-1"]
      else [],
    isdir := fun _ => false,
    inode := fun p => if p == "/boot/vmlinuz-1" then 1 else 2,
    readVer := fun p =>
      if p == "/boot/vmlinuz-1" then .ok "5.10.0"
      else if p == "/boot/vmlinux-1" then .ok "5.10.0"
      else .error .unrecognized }

/-- Filesystem for the same-file deduplication claim: every path has the same
inode, so every candidate is `samefile` with every previously matched path. -/
def fs9 : Fs :=
  { globResults := fun _ => [],
    isdir := fun _ => false,
    inode := fun _ => 7,
    readVer := fun _ => .error .unrecognized }

/-- Scanner state in which the aggregate keyed `1.old` already has an occupied
`modules` slot (as a scan produces when the `1.old` kernel image's internal
version named an existing module tree). -/
def st4 : ScanState :=
  { prevPaths := [],
    kernels := [("1.old",
      { version := "1.old",
        modules := some (mkGenericFile "/old/mods" .modules) })] }

/-- Scanner state for the collision witness: version `1` already carries a
`System.map` file. -/
def stW : ScanState :=
  { prevPaths := ["/x"],
    kernels := [("1",
      { version := "1",
        systemmap := some (mkGenericFile "/old/map" .systemMap) })] }

/-- State for the deduplication witness: one previously matched path. -/
def st9 : ScanState := { prevPaths := ["/a"], kernels := [] }

/-- The removal kinds of all `modules` and `build` slot entries of a kernel
list, in order. -/
def dirEntryKinds (ks : List Kernel) : List RemovalKind :=
  ks.foldr
    (fun k acc => ((k.modules.toList ++ k.build.toList).map GenericFile.rkind) ++ acc)
    []

/-! ### Theorems -/

/-- The splitting of the glob table used for the module-directory claims. -/
theorem stdGlobs_eq_append (bootDir modDir : String) :
    stdGlobs bootDir modDir =
      stdGlobsBoot bootDir ++ [(KernelFileType.modules, modDir ++ "/")] := rfl

/-- The code's section-table loop coincides, for any iteration count, with the
spec's linear scan of that many 40-byte entries. -/
theorem scan_eq_spec (data : Bytes) :
    ∀ (n pos : Nat), scanSections data pos n = scanSectionsSpec data pos n := by
  intro n
  induction n with
  | zero => intro pos; rfl
  | succ k ih =>
    intro pos
    have hL : scanSections data pos (k + 1) =
        if sectionMatch data pos then u32 data (pos + 20)
        else scanSections data (pos + 40) k := rfl
    cases hm : sectionMatch data pos with
    | true =>
      rw [hL, if_pos hm]
      unfold scanSectionsSpec
      rw [List.range_succ_eq_map, List.find?_cons_of_pos _ (by simpa using hm)]
    | false =>
      rw [hL, if_neg (by simp [hm]), ih (pos + 40)]
      have hspec : scanSectionsSpec data pos (k + 1) =
          scanSectionsSpec data (pos + 40) k := by
        unfold scanSectionsSpec
        rw [List.range_succ_eq_map,
          List.find?_cons_of_neg _ (by simpa using hm), List.find?_map]
        have hcomp : ((fun i => sectionMatch data (pos + 40 * i)) ∘ Nat.succ) =
            (fun i => sectionMatch data (pos + 40 + 40 * i)) := by
          funext i
          simp only [Function.comp]
          congr 1
          omega
        rw [hcomp]
        cases hN : (List.range k).find? (fun i => sectionMatch data (pos + 40 + 40 * i)) with
        | none => simp
        | some j =>
          simp only [Option.map_some']
          congr 1
          omega
      rw [hspec]

/-- The four bytes at 2..6 of the 16-byte block read at `start + 0x200` are
the four bytes of the underlying data at `start + 0x202`. -/
theorem hdrs_window_eq (data : Bytes) (start : Nat) :
    (((data.drop (start + 0x200)).take 0x10).drop 2).take 4 =
      (data.drop (start + 0x202)).take 4 := by
  rw [List.drop_take, List.drop_drop, List.take_take]
  have h1 : start + 0x200 + 2 = start + 0x202 := by omega
  have h2 : (4 : Nat) ⊓ (0x10 - 2) = 4 := by
    rw [inf_eq_left]
    omega
  rw [h1, h2]

/-- When `read_internal_version`'s dispatch bytes at `ptr + 0x202` are `HdrS`,
`ver_from_BzImage` cannot fall through to its implicit `None`: its own `HdrS`
check is on the same four bytes, so it either errors or returns a string. -/
theorem verFromBzImage_ne_ok_none (data : Bytes) (start : Nat)
    (h : (data.drop (start + 0x202)).take 4 = hdrSB) :
    verFromBzImage data start ≠ Except.ok none := by
  have hcond : (((data.drop (start + 0x200)).take 0x10).drop 2).take 4 = hdrSB := by
    rw [hdrs_window_eq]; exact h
  intro hc
  simp only [verFromBzImage] at hc
  split at hc <;> try split at hc
  all_goals simp_all

/-- C1: the raw/compressed-stream path cannot return the banner version.  The
magic loop of `ver_from_raw` lacks a `break` and its `else` is bound to the
`if` inside the loop, so after the iteration that consumes the stream every
later iteration reassigns `b = f.read() = b''`: an uncompressed stream that is
exactly the banner, and a gzip stream whose decompression is the banner, both
raise `UnrecognizedKernelError` instead of returning `5.10.0` (the last two
conjuncts verify the banner really is present in the bytes the claim says are
searched). -/
theorem claim_C1_raw_loop_discards_banner :
    verFromRaw availAll decompOracle rawBannerInput = .error .unrecognized ∧
    verFromRaw availAll decompOracle gzInput = .error .unrecognized ∧
    findSub linuxVersionB rawBannerInput = some 0 ∧
    findSub linuxVersionB (decompOracle "gzip" gzInput) = some 0 := by
  decide

/-- C6: `ver_from_raw` does not fail exactly when the marker is absent or
unterminated — it also fails on a stream that contains `Linux version `
followed by a space well within the next 256 bytes, because the magic loop
has discarded the buffer (see C1). -/
theorem claim_C6_fails_although_banner_present :
    verFromRaw availAll decompOracle rawBannerInput2 = .error .unrecognized ∧
    findSub linuxVersionB rawBannerInput2 = some 4 ∧
    ((rawBannerInput2.drop (4 + linuxVersionB.length)).take 0x100).contains 32
      = true := by
  decide

/-- C2 counterexample: on a container header declaring `count = 1` sections
whose only entry is named `.linux` with pointer `0x1234`, the parser
(`range(1, count)` never iterates) returns the default pointer 0, while the
claim's scan of `count` entries returns `0x1234`. -/
theorem claim_C2_counterexample :
    computePTR c2data = .ok 0 ∧
    computePTRclaim c2data = .ok 0x1234 ∧
    computePTR c2data ≠ computePTRclaim c2data := by
  decide

/-- C2 amended: the parser linearly scans up to `count - 1` (not `count`)
40-byte section-table entries — `for i in range(1, NumberOfSections)` performs
`NumberOfSections - 1` iterations, so the last entry is never examined —
stopping at the first whose name contains `.linux` and taking its 4-byte
pointer 20 bytes into the entry, with 0 when no scanned entry matches. -/
theorem claim_C2_scan_is_count_minus_one (data : Bytes) :
    computePTR data = computePTRamended data := by
  unfold computePTR computePTRamended
  cases u8 data 0x3c with
  | error e => rfl
  | ok headerPos =>
    dsimp only
    cases u16 data (headerPos + 4 + 2) with
    | error e => rfl
    | ok n =>
      dsimp only
      cases u16 data (headerPos + 4 + 16) with
      | error e => rfl
      | ok so =>
        dsimp only
        exact scan_eq_spec data (n - 1) (headerPos + 4 + 20 + so)

set_option maxRecDepth 100000 in
/-- C7 counterexample: a complete `MZ` image whose `.linux` section points at
a payload passing the `HdrS` check but carrying a corrupted jump offset of 0:
instead of failing with `UnrecognizedImage`, `parseVersion` silently returns
the 16 header-block bytes themselves as the "version". -/
theorem claim_C7_counterexample :
    readInternalVersion availAll decompOracle c7file = .ok (some c7garbage) ∧
    computePTR c7file = .ok 0 ∧
    bzOffset c7file 0 = 0 := by
  decide

/-- C7 amended: a corrupted jump offset is detected only when it points at or
past the end of the file (the `0x100`-byte read returns nothing), in which
case `ver_from_BzImage` fails with `UnrecognizedImage`; an offset that still
lands inside the file (such as 0, pointing back at the header block) is not
detected and yields a string read from that unintended position (see the
counterexample). -/
theorem claim_C7_eof_offset_raises_unrecognized (data : Bytes) (start : Nat)
    (hlen : ((data.drop (start + 0x200)).take 0x10).length = 0x10)
    (hhdr : (((data.drop (start + 0x200)).take 0x10).drop 2).take 4 = hdrSB)
    (hoob : data.length ≤ start + 0x200 + bzOffset data start) :
    verFromBzImage data start = .error .unrecognized := by
  have h2 : data.drop (start + 0x200 + bzOffset data start) = [] :=
    List.drop_eq_nil_of_le hoob
  simp [verFromBzImage, hlen, hhdr, h2]

set_option maxRecDepth 100000 in
/-- Witness for the C7 amended theorem: on `c7bfile` (jump offset 64,
pointing past the 528-byte end of file) the parser fails with
`UnrecognizedImage`. -/
theorem claim_C7_witness :
    verFromBzImage c7bfile 0 = .error .unrecognized :=
  claim_C7_eof_offset_raises_unrecognized c7bfile 0 (by decide) (by decide)
    (by decide)

/-- C10: whenever `read_internal_version` dispatches on `HdrS` at
`ptr + 0x202`, `ver_from_BzImage`'s own check of bytes 2..6 of the block at
`ptr + 0x200` sees the same four bytes, so the fall-through branch returning
`None` is unreachable and the parser either errors or produces a version; in
particular `read_internal_version` never evaluates to `.ok none` on any
input. -/
theorem claim_C10_no_missing_version :
    (∀ (data : Bytes) (start : Nat),
        (data.drop (start + 0x202)).take 4 = hdrSB →
        verFromBzImage data start ≠ Except.ok none) ∧
    (∀ (avail : String → Bool) (decomp : String → Bytes → Bytes) (data : Bytes),
        readInternalVersion avail decomp data ≠ Except.ok none) := by
  constructor
  · exact verFromBzImage_ne_ok_none
  · intro avail decomp data
    unfold readInternalVersion
    by_cases hmz : data.take 2 = mzB
    · rw [if_pos hmz]
      cases computePTR data with
      | error e => simp
      | ok ptr =>
        dsimp only
        by_cases hd : (data.drop (ptr + 0x202)).take 4 = hdrSB
        · rw [if_pos hd]
          exact verFromBzImage_ne_ok_none data ptr hd
        · rw [if_neg hd]
          cases verFromRaw avail decomp (data.drop ptr) <;> simp [Except.map]
    · rw [if_neg hmz]
      cases verFromRaw avail decomp (data.drop 2) <;> simp [Except.map]

set_option maxRecDepth 100000 in
/-- Witness for C10: on the concrete container image `c7file` the dispatch
bytes are `HdrS` and `ver_from_BzImage` indeed does not produce `None`. -/
theorem claim_C10_witness :
    verFromBzImage c7file 0 ≠ Except.ok none :=
  claim_C10_no_missing_version.1 c7file 0 (by decide)

/-- C9: a module-tree candidate that is the same file (equal stat identity) as
any previously matched path is skipped entirely — the state (previously
matched paths and aggregates) is returned unchanged, regardless of how the
candidate's path string compares to the previous ones. -/
theorem claim_C9_samefile_candidate_skipped (fs : Fs) (excl : List String)
    (st : ScanState) (g m : String)
    (h : sameFileAny fs st.prevPaths m = true) :
    processGlobFile fs excl st KernelFileType.modules g m = .ok st := by
  simp [processGlobFile, h]

/-- Witness for C9: under `fs9` every path has inode 7, so the candidate
`/lib/modules/b` — whose path string differs from the previously matched
`/a` — is skipped with the state unchanged. -/
theorem claim_C9_witness :
    processGlobFile fs9 [] st9 KernelFileType.modules "/lib/modules/"
        "/lib/modules/b" = .ok st9 :=
  claim_C9_samefile_candidate_skipped fs9 [] st9 "/lib/modules/"
    "/lib/modules/b" (by decide)

/-- C8: when a glob match lands on a slot of its aggregate that is already
occupied, the per-match step aborts with the `Colliding ... files` error
naming the new path and the occupying file's path (first conjunct, for any
state, rule and match — the module match must not have been `samefile`-skipped
and a kernel match must have parsed); and a full `find_kernels` scan in which
`/boot/vmlinuz-1` and `/boot/vmlinux-1` both map to version key `1` aborts
with exactly that error naming both paths (second conjunct). -/
theorem claim_C8_occupied_slot_aborts_with_both_paths :
    (∀ (fs : Fs) (excl : List String) (st : ScanState) (cat : KernelFileType)
        (g m : String) (k : Kernel) (old : GenericFile) (v : String),
        lookupK st.kernels (computeKv cat g m) = some k →
        k.slot cat = some old →
        (cat = KernelFileType.modules → sameFileAny fs st.prevPaths m = false) →
        (cat = KernelFileType.kernel → fs.readVer m = .ok v) →
        processGlobFile fs excl st cat g m =
          .error (.collision cat.value m old.path)) ∧
    findKernels fs8 [] "/boot" "/lib/modules" =
      .error (.collision "vmlinuz" "/boot/vmlinux-1" "/boot/vmlinuz-1") := by
  constructor
  · intro fs excl st cat g m k old v hk hslot hskip hver
    cases cat with
    | misc => simp [Kernel.slot] at hslot
    | emptydir => simp [Kernel.slot] at hslot
    | kernel =>
      simp [processGlobFile, hver rfl, Except.map, getOrInit, hk,
        Kernel.setSlot, hslot, KernelFileType.value]
    | modules =>
      simp [processGlobFile, hskip rfl, getOrInit, hk, Kernel.setSlot, hslot,
        KernelFileType.value]
    | systemMap =>
      simp [processGlobFile, getOrInit, hk, Kernel.setSlot, hslot,
        KernelFileType.value]
    | config =>
      simp [processGlobFile, getOrInit, hk, Kernel.setSlot, hslot,
        KernelFileType.value]
    | initramfs =>
      simp [processGlobFile, getOrInit, hk, Kernel.setSlot, hslot,
        KernelFileType.value]
    | build =>
      simp [processGlobFile, getOrInit, hk, Kernel.setSlot, hslot,
        KernelFileType.value]
  · decide

/-- Witness for C8: assigning `/boot/System.map-1` to version `1`, whose
`systemmap` slot is already occupied by `/old/map`, aborts naming both
paths. -/
theorem claim_C8_witness :
    processGlobFile fs8 [] stW KernelFileType.systemMap "/boot/System.map-"
        "/boot/System.map-1" =
      .error (.collision "systemmap" "/boot/System.map-1" "/old/map") :=
  claim_C8_occupied_slot_aborts_with_both_paths.1 fs8 [] stW
    KernelFileType.systemMap "/boot/System.map-" "/boot/System.map-1"
    { version := "1", systemmap := some (mkGenericFile "/old/map" .systemMap) }
    (mkGenericFile "/old/map" .systemMap) ""
    (by decide) (by decide) (fun hc => nomatch hc) (fun hc => nomatch hc)

/-- C4 counterexample: processing the module-tree match `/lib/modules/1`
(version key `1`) in a state where the aggregate `1.old` already has an
occupied `modules` slot does not leave that slot unchanged without error: the
scan aborts with a fatal slot-overwrite error. -/
theorem claim_C4_counterexample :
    processGlobFile fs5 [] st4 KernelFileType.modules "/lib/modules/"
        "/lib/modules/1" =
      .error (.slotOccupied "modules" "/lib/modules/1" "/old/mods") := by
  decide

/-- C4 amended: the `.old` propagation assigns unconditionally.  Under the
spec's set-if-empty-else-fail slot discipline this means: when the `.old`
aggregate's `modules` slot is already occupied the scan aborts with a fatal
slot-overwrite error naming both paths (first conjunct), and when its
`modules` and `build` slots are both empty they are filled with the current
aggregate's `modules` and `build` references (second conjunct). -/
theorem claim_C4_propagation_fills_empty_or_aborts :
    (∀ (ks : List (String × Kernel)) (kv : String) (newk kold : Kernel)
        (fo w : GenericFile),
        lookupK ks (kv ++ ".old") = some kold →
        newk.modules = some fo →
        kold.modules = some w →
        propagateToOld ks kv newk =
          .error (.slotOccupied "modules" fo.path w.path)) ∧
    (∀ (ks : List (String × Kernel)) (kv : String) (newk kold : Kernel)
        (fo : GenericFile),
        lookupK ks (kv ++ ".old") = some kold →
        newk.modules = some fo →
        kold.modules = none →
        kold.build = none →
        propagateToOld ks kv newk =
          .ok (updateK ks (kv ++ ".old")
            { kold with modules := some fo, build := newk.build })) := by
  constructor
  · intro ks kv newk kold fo w hl hm hw
    simp [propagateToOld, hl, hm, Kernel.setSlot, Kernel.slot, hw]
  · intro ks kv newk kold fo hl hm hmod hb
    obtain ⟨ver, vz, sm, cf, ir, md, bd⟩ := kold
    simp only [Kernel.modules] at hmod
    simp only [Kernel.build] at hb
    subst hmod hb
    cases hnb : newk.build with
    | none => simp [propagateToOld, hl, hm, hnb, Kernel.setSlot, Kernel.slot]
    | some bf => simp [propagateToOld, hl, hm, hnb, Kernel.setSlot, Kernel.slot]

/-- Witness for the C4 amended theorem: the occupied case on the concrete
state `st4` aborts naming both module paths, and the empty case on a fresh
`2.old` aggregate fills its `modules` slot. -/
theorem claim_C4_witness :
    propagateToOld st4.kernels "1"
        { version := "1",
          modules := some (mkGenericFile "/lib/modules/1" .modules) } =
      .error (.slotOccupied "modules" "/lib/modules/1" "/old/mods") ∧
    propagateToOld [("2.old", { version := "2.old" })] "2"
        { version := "2",
          modules := some (mkGenericFile "/lib/modules/2" .modules) } =
      .ok (updateK [("2.old", { version := "2.old" })] "2.old"
        { version := "2.old",
          modules := some (mkGenericFile "/lib/modules/2" .modules),
          build := none }) := by
  constructor
  · exact claim_C4_propagation_fills_empty_or_aborts.1 st4.kernels "1" _
      { version := "1.old", modules := some (mkGenericFile "/old/mods" .modules) }
      (mkGenericFile "/lib/modules/1" .modules)
      (mkGenericFile "/old/mods" .modules) (by decide) rfl rfl
  · exact claim_C4_propagation_fills_empty_or_aborts.2
      [("2.old", { version := "2.old" })] "2" _ { version := "2.old" }
      (mkGenericFile "/lib/modules/2" .modules) (by decide) rfl rfl rfl

/-- C3 counterexample: with `moduleDir = /custom`, a kernel image whose
internal version is `V` — and with both `/custom/V` and `/lib/modules/V`
existing on disk — gets its module tree assigned from `/lib/modules/V`, not
from `moduleDir/V = /custom/V`: the derived path is not under the `moduleDir`
argument. -/
theorem claim_C3_counterexample :
    (findKernels fs3 [] "/boot" "/custom").map
        (fun l => l.map (fun k => k.modules.map GenericFile.path)) =
      .ok [some "/lib/modules/V"] ∧
    pathJoin "/custom" "V" = "/custom/V" ∧
    ("/lib/modules/V" : String) ≠ "/custom/V" := by
  decide

/-- C3 amended: the module-tree and build-dir paths derived from a kernel
image's internal version are rooted at the hardcoded `/lib/modules`; the
`moduleDir` argument influences `find_kernels` only through the
module-directory glob pattern, so two scans whose module globs both match
nothing are identical whatever their `moduleDir` arguments. -/
theorem claim_C3_moduledir_only_through_glob (fs : Fs) (excl : List String)
    (bootDir md1 md2 : String)
    (h1 : fs.globResults (md1 ++ "/") = [])
    (h2 : fs.globResults (md2 ++ "/") = []) :
    findKernels fs excl bootDir md1 = findKernels fs excl bootDir md2 := by
  have hstep : ∀ st,
      processGlob fs excl st KernelFileType.modules (md1 ++ "/") =
        processGlob fs excl st KernelFileType.modules (md2 ++ "/") := by
    intro st
    unfold processGlob
    rw [h1, h2]
    simp only [List.foldlM_nil]
  unfold findKernels
  rw [stdGlobs_eq_append bootDir md1, stdGlobs_eq_append bootDir md2,
    List.foldlM_append, List.foldlM_append]
  congr 1
  congr 1
  funext st
  simp only [List.foldlM_cons, List.foldlM_nil]
  rw [hstep st]

/-- Witness for the C3 amended theorem: under `fs3` neither `/custom/` nor
`/lib/modules/` matches anything, and the two scans coincide. -/
theorem claim_C3_witness :
    findKernels fs3 [] "/boot" "/custom" =
      findKernels fs3 [] "/boot" "/lib/modules" :=
  claim_C3_moduledir_only_through_glob fs3 [] "/boot" "/custom" "/lib/modules"
    (by decide) (by decide)

/-- C5: the `Modules`- and `Build`-role entries produced by `find_kernels` —
both the globbed `/lib/modules/2` (with its build dir) and the
internal-version-derived `/lib/modules/V` (with its build dir) — are all
constructed as plain `GenericFile`s whose `remove()` is `os.unlink`, not as
`GenericDirectory`/`ModuleDirectory` with recursive `shutil.rmtree`: invoking
`remove()` on such an existing directory raises `IsADirectoryError` instead of
removing the tree (last two conjuncts contrast the two behaviors). -/
theorem claim_C5_module_entries_unlink_not_rmtree :
    dirEntryKinds ((findKernels fs5 [] "/boot" "/lib/modules").toOption.getD [])
      = [RemovalKind.unlink, RemovalKind.unlink, RemovalKind.unlink,
         RemovalKind.unlink] ∧
    removeAct RemovalKind.unlink true true false = RemoveOutcome.errIsADirectory ∧
    removeAct RemovalKind.rmtree true true false = RemoveOutcome.removed := by
  decide

end ECleanKernel
